import Mathlib

/-!
Verification of the content-block script `blocks/mycard/mycard.js`.

The script wires a single content block: it resolves a block identifier
from the host markup, fetches (mocked, with a fixed 500ms delay) a content
payload for it, and renders the payload into three fixed DOM targets
(title, description, button), attaching a click handler that shows a
transient toast message.

The embedding below models:
  * `ContentData` — the payload shape, with JS truthiness on optional
    string fields (`truthy`);
  * `Dom` — the three render targets, each possibly absent. The button is
    modelled with the aliasing the source creates: the const
    `blockButtonElement` captured at DOMContentLoaded keeps pointing at
    the original node even after a render has replaced that node in the
    document with a clone (`ButtonState`);
  * `renderContentBlock` — the renderer as a pure state transformer that
    returns the new state, the list of `console.warn` messages it emits,
    and whether the call completed or threw: once the captured node is
    detached, its `parentNode` is null and the `replaceChild` line throws
    a TypeError;
  * the button click handler as the payload closure it captures
    (`clickHandlerRun`), with the page location threaded through to record
    that navigation is logged but never performed;
  * `showTemporaryMessage` — the toast as a schedule (fade-in delay,
    display duration, removal trigger), with a small timed semantics
    (`toastOpacityTarget`, `toastInDocument`);
  * `fetchContentForBlock` — the mocked fetch as a promise value carrying
    its delay and its outcome (an `Except`, so that the rejection branch
    is representable), plus a timed view `fetchStateAt`;
  * `initBlock` — the `DOMContentLoaded` initialization logic.
-/

namespace Mycard

/-- JS truthiness of an optional string field: `undefined` / `null` and
the empty string are falsy, every other string is truthy. -/
def truthy : Option String → Bool
  | some s => !s.isEmpty
  | none => false

/-- JS string interpolation of a possibly absent value. -/
def jsTemplate : Option String → String
  | some s => s
  | none => "undefined"

/-- The content payload for a block, as produced by the content source
(`title`, `description`, optional `buttonText` / `buttonLink`). -/
structure ContentData where
  title : Option String
  description : Option String
  buttonText : Option String
  buttonLink : Option String
deriving DecidableEq, Repr

/-- A text render target (the title or description element). -/
structure TextElem where
  textContent : String
deriving DecidableEq, Repr

/-- A button DOM node: its text, its CSS `display` value and the attached
click listeners. Each listener closure captures the payload the render
call that attached it was given, so a listener is modelled by that
captured payload. -/
structure ButtonElem where
  textContent : String
  display : String
  handlers : List ContentData
deriving DecidableEq, Repr

/-- The button part of the page, tracking the aliasing the source sets
up. `varNode` is the node the const `blockButtonElement` points at
(captured once at DOMContentLoaded; `none` when the element was missing).
`detachedDoc` is `none` while that node is still the one in the document;
after a render has run `replaceChild`, `varNode` is the detached original
(its `parentNode` is null) and `detachedDoc` holds the clone that now
sits in the document. -/
structure ButtonState where
  varNode : Option ButtonElem
  detachedDoc : Option ButtonElem
deriving DecidableEq, Repr

/-- The button the user actually sees: the replacement clone when the
captured node has been detached, the captured node itself otherwise. -/
def docButton (s : ButtonState) : Option ButtonElem :=
  match s.detachedDoc with
  | some b1 => some b1
  | none => s.varNode

/-- The three fixed render targets; each may be missing from the page. -/
structure Dom where
  blockTitleElement : Option TextElem
  blockDescriptionElement : Option TextElem
  button : ButtonState
deriving DecidableEq, Repr

/-- How a `renderContentBlock` call ends: normally, or by the TypeError
thrown at the `replaceChild` call when `blockButtonElement.parentNode` is
null (the captured node was detached by an earlier render). -/
inductive RenderOutcome
  | completed
  | threwTypeError
deriving DecidableEq, Repr

/-- Result of one `renderContentBlock` call: the page state when the call
returns or throws (mutations made before the throw persist), the
`console.warn` messages emitted, and how the call ended. -/
structure RenderResult where
  dom : Dom
  warnings : List String
  outcome : RenderOutcome
deriving DecidableEq, Repr

def defaultTitleText : String := "Default Component Title"

def defaultDescriptionText : String :=
  "Default description text for the component."

def titleWarning : String :=
  "Content Block: Title element or content data.title not found. Using default."

def descriptionWarning : String :=
  "Content Block: Description element or content data.description not found. Using default."

/-- One transient toast message box, as the schedule set up by
`showTemporaryMessage`: the node is appended with opacity
`initialOpacity`, a timer at `fadeInDelayMs` sets opacity 1, a timer at
`displayDurationMs` sets opacity 0 and registers the removal, and
`removal` records what triggers removal from the document. -/
inductive RemovalTrigger
  | transitionEnd
  | atTime (t : Nat)
deriving DecidableEq, Repr

structure Toast where
  message : String
  initialOpacity : Nat
  fadeInDelayMs : Nat
  displayDurationMs : Nat
  removal : RemovalTrigger
deriving DecidableEq, Repr

/-- `showTemporaryMessage(message)`: appends a message box with opacity 0,
sets opacity 1 after 10ms, sets opacity 0 at 2000ms and registers a
`transitionend` listener there that removes the node. -/
def showTemporaryMessage (message : String) : Toast :=
  { message := message
    initialOpacity := 0
    fadeInDelayMs := 10
    displayDurationMs := 2000
    removal := RemovalTrigger.transitionEnd }

/-- The opacity value most recently assigned to the toast node at time
`t` (ms since `showTemporaryMessage` ran): 0 until the fade-in timer,
1 until the fade-out timer, 0 afterwards. -/
def toastOpacityTarget (tst : Toast) (t : Nat) : Nat :=
  if t < tst.fadeInDelayMs then tst.initialOpacity
  else if t < tst.displayDurationMs then 1
  else 0

/-- Whether the toast node is still in the document at time `t`, given
that the fade-out transition completes (fires `transitionend`) at time
`te`. The node is appended at time 0 and removed by its trigger. -/
def toastInDocument (tst : Toast) (te : Nat) (t : Nat) : Bool :=
  match tst.removal with
  | RemovalTrigger.transitionEnd => decide (t < te)
  | RemovalTrigger.atTime r => decide (t < r)

/-- The observable effect of invoking the click handler that captured
`data`, on a page whose current location is `location`: the resulting
location (the navigation line is commented out in the source, so it is
only ever logged), the `console.log` lines, and the toasts shown. -/
structure ClickResult where
  location : String
  logs : List String
  notifications : List Toast
deriving DecidableEq, Repr

def clickHandlerRun (data : ContentData) (location : String) : ClickResult :=
  { location := location
    logs :=
      if truthy data.buttonLink then
        [("Content Block: Navigating to: ") ++ jsTemplate data.buttonLink]
      else []
    notifications :=
      [showTemporaryMessage
        (("Action: \x22") ++ jsTemplate data.buttonText ++ ("\x22 clicked!"))] }

/-- Dispatching a click on the button: every attached listener runs, in
registration order; the result is the list of toasts produced. -/
def fireClick (b : ButtonElem) (location : String) : List Toast :=
  b.handlers.foldr (fun d acc => (clickHandlerRun d location).notifications ++ acc) []

/-- `renderContentBlock(data)`: injects the payload into the three
targets. The title and description sections run first and always
complete. The button section operates on the node held by the const
`blockButtonElement` (`varNode`): with truthy `buttonText` it sets that
node's text and `display`, clones it with `cloneNode(true)` — which
copies text and style but not event listeners — and then calls
`blockButtonElement.parentNode.replaceChild(...)`. On a fresh page the
parent exists, the clone replaces the captured node in the document and
gets one fresh listener; but if an earlier render already detached the
captured node, `parentNode` is null and the call throws a TypeError
there, after the text/display mutations of the detached node and before
any listener is attached. With falsy `buttonText` it only sets
`display = "none"` on the captured node. -/
def renderContentBlock (data : ContentData) (dom : Dom) : RenderResult :=
  let titleStep : Option TextElem × List String :=
    match dom.blockTitleElement with
    | some e =>
      if truthy data.title then
        (some { e with textContent := data.title.getD ("") }, [])
      else
        (some { e with textContent := defaultTitleText }, [titleWarning])
    | none => (none, [titleWarning])
  let descStep : Option TextElem × List String :=
    match dom.blockDescriptionElement with
    | some e =>
      if truthy data.description then
        (some { e with textContent := data.description.getD ("") }, [])
      else
        (some { e with textContent := defaultDescriptionText }, [descriptionWarning])
    | none => (none, [descriptionWarning])
  let buttonStep : ButtonState × RenderOutcome :=
    match dom.button.varNode with
    | some b =>
      if truthy data.buttonText then
        let bMut : ButtonElem :=
          { b with textContent := data.buttonText.getD (""), display := "block" }
        let clone : ButtonElem :=
          { textContent := bMut.textContent, display := bMut.display, handlers := [] }
        match dom.button.detachedDoc with
        | none =>
          ({ varNode := some bMut, detachedDoc := some { clone with handlers := [data] } },
           RenderOutcome.completed)
        | some b1 =>
          ({ varNode := some bMut, detachedDoc := some b1 },
           RenderOutcome.threwTypeError)
      else
        ({ varNode := some { b with display := "none" }
           detachedDoc := dom.button.detachedDoc },
         RenderOutcome.completed)
    | none => (dom.button, RenderOutcome.completed)
  { dom :=
      { blockTitleElement := titleStep.1
        blockDescriptionElement := descStep.1
        button := buttonStep.1 }
    warnings := titleStep.2 ++ descStep.2
    outcome := buttonStep.2 }

/-- The fixed mock mapping from block identifiers to content payloads. -/
def mockContentData (blockId : String) : Option ContentData :=
  if blockId = ("homepage-hero-block") then
    some { title := some ("Accelerate Your Digital Experience")
           description := some ("Leverage Adobe EDS components for rapid development and consistent brand presence across all your digital touchpoints. From design to deployment, streamline your workflow.")
           buttonText := some ("Discover Our Components")
           buttonLink := some ("/components") }
  else if blockId = ("about-us-intro-block") then
    some { title := some ("Our Story: Innovation at Core")
           description := some ("Learn about our journey in pioneering digital solutions that empower businesses worldwide. We believe in crafting exceptional user experiences and solutions.")
           buttonText := some ("Meet the Team")
           buttonLink := some ("/about") }
  else if blockId = ("contact-promo-block") then
    some { title := some ("Ready to Transform?")
           description := some ("Connect with our experts to discuss how our EDS can elevate your digital strategy. We\x27re here to help you succeed, every step of the way.")
           buttonText := some ("Contact Us Today")
           buttonLink := some ("/contact") }
  else if blockId = ("no-button-info-block") then
    some { title := some ("Important Update")
           description := some ("This content block provides vital updates and does not require a call-to-action button, focusing purely on conveying information.")
           buttonText := none
           buttonLink := none }
  else none

/-- The fallback payload resolved for an unknown identifier: the title
embeds the identifier, the description says the content could not be
loaded, and `buttonText` is null (no call-to-action). -/
def fallbackContent (blockId : String) : ContentData :=
  { title := some (("Content Not Found (ID: ") ++ blockId ++ (")"))
    description := some ("The content for this specific block could not be loaded. Please verify the block ID and content source configuration.")
    buttonText := none
    buttonLink := none }

instance : DecidableEq (Except String ContentData) := fun x y =>
  match x, y with
  | Except.ok a, Except.ok b =>
    if h : a = b then isTrue (by rw [h])
    else isFalse (by intro hc; injection hc with h2; exact h h2)
  | Except.ok _, Except.error _ => isFalse (fun hc => Except.noConfusion hc)
  | Except.error _, Except.ok _ => isFalse (fun hc => Except.noConfusion hc)
  | Except.error a, Except.error b =>
    if h : a = b then isTrue (by rw [h])
    else isFalse (by intro hc; injection hc with h2; exact h h2)

/-- The promise returned by `fetchContentForBlock`: its settling delay in
ms and its outcome. `Except.error` represents rejection; the source
executor only ever calls `resolve`, never `reject`. -/
structure FetchPromise where
  delayMs : Nat
  outcome : Except String ContentData
deriving DecidableEq, Repr

def fetchContentForBlock (blockId : String) : FetchPromise :=
  { delayMs := 500
    outcome := Except.ok ((mockContentData blockId).getD (fallbackContent blockId)) }

/-- The settled state of the fetch promise at time `t` (ms since the
call): `none` while still pending, `some outcome` once the 500ms timer
has fired and resolved it. -/
def fetchStateAt (blockId : String) (t : Nat) : Option (Except String ContentData) :=
  if (fetchContentForBlock blockId).delayMs ≤ t then
    some (fetchContentForBlock blockId).outcome
  else none

def containerMissingError : String :=
  "Content Block: Main container element with ID \x27edsContentBlock\x27 not found. Ensure your EDS template renders this element."

/-- `blockId = mainContentBlockContainer.dataset.blockId || \x27homepage-hero-block\x27`:
a missing attribute (undefined) and an empty string are both falsy, so
both fall back to the default identifier. -/
def resolveBlockId (attr : Option String) : String :=
  match attr with
  | some s => if s.isEmpty then "homepage-hero-block" else s
  | none => "homepage-hero-block"

/-- The payload rendered from the `.catch` branch of initialization. -/
def errorContent : ContentData :=
  { title := some ("Error Loading Content")
    description := some ("An unexpected error occurred while fetching the content for this block. Please contact support.")
    buttonText := none
    buttonLink := none }

/-- Observable outcome of the `DOMContentLoaded` initialization:
`console.error` lines, the block id a fetch was issued for (if any), the
payload passed to `renderContentBlock` (if it was called at all), the
final DOM state, and the render warnings. -/
structure InitResult where
  errors : List String
  fetchIssued : Option String
  rendered : Option ContentData
  finalDom : Dom
  warnings : List String
deriving DecidableEq, Repr

/-- The initialization logic. `container` is `none` when the element with
id `edsContentBlock` is absent; otherwise it carries the value of the
`data-block-id` attribute (`none` when the attribute is missing). -/
def initBlock (container : Option (Option String)) (dom : Dom) : InitResult :=
  match container with
  | none =>
    { errors := [containerMissingError]
      fetchIssued := none
      rendered := none
      finalDom := dom
      warnings := [] }
  | some attr =>
    let blockId := resolveBlockId attr
    match (fetchContentForBlock blockId).outcome with
    | Except.ok contentData =>
      let r := renderContentBlock contentData dom
      match r.outcome with
      | RenderOutcome.completed =>
        { errors := []
          fetchIssued := some blockId
          rendered := some contentData
          finalDom := r.dom
          warnings := r.warnings }
      | RenderOutcome.threwTypeError =>
        -- a TypeError thrown inside the .then callback rejects the chained
        -- promise, so the .catch handler logs and renders the error payload
        let r2 := renderContentBlock errorContent r.dom
        { errors := [("Content Block: Failed to load content for block: ") ++ blockId ++ (" TypeError")]
          fetchIssued := some blockId
          rendered := some errorContent
          finalDom := r2.dom
          warnings := r.warnings ++ r2.warnings }
    | Except.error e =>
      let r := renderContentBlock errorContent dom
      { errors := [("Content Block: Failed to load content for block: ") ++ blockId ++ (" ") ++ e]
        fetchIssued := some blockId
        rendered := some errorContent
        finalDom := r.dom
        warnings := r.warnings }

/-! ### Helper lemmas -/

theorem fetchStateAt_of_le (k : String) (t : Nat) (h : 500 ≤ t) :
    fetchStateAt k t = some (fetchContentForBlock k).outcome := by
  simp [fetchStateAt, fetchContentForBlock, h]

theorem fetchStateAt_of_lt (k : String) (t : Nat) (h : t < 500) :
    fetchStateAt k t = none := by
  have h2 : ¬ 500 ≤ t := by omega
  simp [fetchStateAt, fetchContentForBlock, h2]

theorem titleWarning_ne_descriptionWarning : titleWarning ≠ descriptionWarning := by
  decide

/-! ### Claim theorems -/

/-- C2: for every input blockId, the promise returned by
`fetchContentForBlock` resolves successfully (its outcome is `Except.ok`)
and never rejects: the error branch is unreachable. -/
theorem fetch_never_rejects (blockId : String) :
    (∃ d : ContentData, (fetchContentForBlock blockId).outcome = Except.ok d) ∧
    ∀ e : String, (fetchContentForBlock blockId).outcome ≠ Except.error e := by
  refine ⟨⟨(mockContentData blockId).getD (fallbackContent blockId), rfl⟩, ?_⟩
  intro e h
  simp [fetchContentForBlock] at h

/-- C2 witness: at the concrete id "nope" the fetch resolves successfully. -/
theorem fetch_never_rejects_witness :
    (∃ d : ContentData, (fetchContentForBlock ("nope")).outcome = Except.ok d) ∧
    ∀ e : String, (fetchContentForBlock ("nope")).outcome ≠ Except.error e :=
  fetch_never_rejects ("nope")

/-- C3: for each key of the fixed mock mapping, `fetchContentForBlock` is
still pending before the 500ms delay has elapsed, and once it has elapsed
it resolves to exactly that entry's fields. -/
theorem fetch_known_ids_resolve_after_delay (t : Nat) :
    (t < 500 →
      fetchStateAt ("homepage-hero-block") t = none ∧
      fetchStateAt ("about-us-intro-block") t = none ∧
      fetchStateAt ("contact-promo-block") t = none ∧
      fetchStateAt ("no-button-info-block") t = none) ∧
    (500 ≤ t →
      fetchStateAt ("homepage-hero-block") t = some (Except.ok
        { title := some ("Accelerate Your Digital Experience")
          description := some ("Leverage Adobe EDS components for rapid development and consistent brand presence across all your digital touchpoints. From design to deployment, streamline your workflow.")
          buttonText := some ("Discover Our Components")
          buttonLink := some ("/components") }) ∧
      fetchStateAt ("about-us-intro-block") t = some (Except.ok
        { title := some ("Our Story: Innovation at Core")
          description := some ("Learn about our journey in pioneering digital solutions that empower businesses worldwide. We believe in crafting exceptional user experiences and solutions.")
          buttonText := some ("Meet the Team")
          buttonLink := some ("/about") }) ∧
      fetchStateAt ("contact-promo-block") t = some (Except.ok
        { title := some ("Ready to Transform?")
          description := some ("Connect with our experts to discuss how our EDS can elevate your digital strategy. We\x27re here to help you succeed, every step of the way.")
          buttonText := some ("Contact Us Today")
          buttonLink := some ("/contact") }) ∧
      fetchStateAt ("no-button-info-block") t = some (Except.ok
        { title := some ("Important Update")
          description := some ("This content block provides vital updates and does not require a call-to-action button, focusing purely on conveying information.")
          buttonText := none
          buttonLink := none })) := by
  constructor
  · intro h
    exact ⟨fetchStateAt_of_lt _ t h, fetchStateAt_of_lt _ t h,
      fetchStateAt_of_lt _ t h, fetchStateAt_of_lt _ t h⟩
  · intro h
    refine ⟨?_, ?_, ?_, ?_⟩ <;> rw [fetchStateAt_of_le _ t h] <;> rfl

/-- C3 witness: at t = 0 the fetch for "homepage-hero-block" is pending;
at t = 500 it has resolved to that entry. -/
theorem fetch_known_ids_resolve_after_delay_witness :
    fetchStateAt ("homepage-hero-block") 0 = none ∧
    fetchStateAt ("homepage-hero-block") 500 = some (Except.ok
      { title := some ("Accelerate Your Digital Experience")
        description := some ("Leverage Adobe EDS components for rapid development and consistent brand presence across all your digital touchpoints. From design to deployment, streamline your workflow.")
        buttonText := some ("Discover Our Components")
        buttonLink := some ("/components") }) :=
  ⟨((fetch_known_ids_resolve_after_delay 0).1 (by omega)).1,
   ((fetch_known_ids_resolve_after_delay 500).2 (by omega)).1⟩

/-- C4: for every identifier x outside the mock mapping, the fetch
resolves to the fallback payload: its title embeds x (so contains x as a
substring), its description is the fixed could-not-be-loaded text, and
its buttonText is absent. -/
theorem fetch_unknown_id_fallback (x : String) (h : mockContentData x = none) :
    (fetchContentForBlock x).outcome = Except.ok
      { title := some (("Content Not Found (ID: ") ++ x ++ (")"))
        description := some ("The content for this specific block could not be loaded. Please verify the block ID and content source configuration.")
        buttonText := none
        buttonLink := none } ∧
    ∃ pre post : String, (("Content Not Found (ID: ") ++ x ++ (")")) = pre ++ x ++ post := by
  refine ⟨?_, "Content Not Found (ID: ", ")", rfl⟩
  simp [fetchContentForBlock, fallbackContent, h]

/-- C4 witness: the concrete unknown id "mystery-block" resolves to the
fallback payload embedding it. -/
theorem fetch_unknown_id_fallback_witness :
    mockContentData ("mystery-block") = none ∧
    (fetchContentForBlock ("mystery-block")).outcome = Except.ok
      { title := some ("Content Not Found (ID: mystery-block)")
        description := some ("The content for this specific block could not be loaded. Please verify the block ID and content source configuration.")
        buttonText := none
        buttonLink := none } :=
  ⟨by decide, (fetch_unknown_id_fallback ("mystery-block") (by decide)).1⟩

/-- C5: the render rule for the two text targets. If the payload's title
is truthy and the title target exists, its text becomes the payload's
title and no title warning is emitted; if the title is empty/absent, a
title warning is emitted and the target (when it exists) gets the fixed
default title text; if the target is missing, a title warning is emitted
and no title target appears in the result. The same holds independently
for the description with its own default and warning. -/
theorem render_title_description_rule (data : ContentData) (dom : Dom) :
    ((truthy data.title = true →
      ∀ e, dom.blockTitleElement = some e →
        (∃ s, data.title = some s ∧
          (renderContentBlock data dom).dom.blockTitleElement = some { textContent := s }) ∧
        titleWarning ∉ (renderContentBlock data dom).warnings) ∧
     (truthy data.title = false →
        titleWarning ∈ (renderContentBlock data dom).warnings ∧
        ∀ e, dom.blockTitleElement = some e →
          (renderContentBlock data dom).dom.blockTitleElement =
            some { textContent := defaultTitleText }) ∧
     (dom.blockTitleElement = none →
        titleWarning ∈ (renderContentBlock data dom).warnings ∧
        (renderContentBlock data dom).dom.blockTitleElement = none)) ∧
    ((truthy data.description = true →
      ∀ e, dom.blockDescriptionElement = some e →
        (∃ s, data.description = some s ∧
          (renderContentBlock data dom).dom.blockDescriptionElement = some { textContent := s }) ∧
        descriptionWarning ∉ (renderContentBlock data dom).warnings) ∧
     (truthy data.description = false →
        descriptionWarning ∈ (renderContentBlock data dom).warnings ∧
        ∀ e, dom.blockDescriptionElement = some e →
          (renderContentBlock data dom).dom.blockDescriptionElement =
            some { textContent := defaultDescriptionText }) ∧
     (dom.blockDescriptionElement = none →
        descriptionWarning ∈ (renderContentBlock data dom).warnings ∧
        (renderContentBlock data dom).dom.blockDescriptionElement = none)) := by
  have hne := titleWarning_ne_descriptionWarning
  have hne2 : descriptionWarning ≠ titleWarning := Ne.symm hne
  refine ⟨⟨?_, ?_, ?_⟩, ⟨?_, ?_, ?_⟩⟩
  · intro ht e he
    cases hds : data.title with
    | none => rw [hds] at ht; simp [truthy] at ht
    | some s =>
      rw [hds] at ht
      refine ⟨⟨s, rfl, ?_⟩, ?_⟩
      · simp [renderContentBlock, he, ht, hds]
      · cases hod : dom.blockDescriptionElement <;>
          cases hd : truthy data.description <;>
          simp [renderContentBlock, he, ht, hds, hod, hd, hne]
  · intro ht
    constructor
    · cases hot : dom.blockTitleElement <;>
        simp [renderContentBlock, ht, hot]
    · intro e he
      simp [renderContentBlock, he, ht]
  · intro hot
    constructor
    · simp [renderContentBlock, hot]
    · simp [renderContentBlock, hot]
  · intro hd e he
    cases hds : data.description with
    | none => rw [hds] at hd; simp [truthy] at hd
    | some s =>
      rw [hds] at hd
      refine ⟨⟨s, rfl, ?_⟩, ?_⟩
      · simp [renderContentBlock, he, hd, hds]
      · cases hot : dom.blockTitleElement <;>
          cases ht : truthy data.title <;>
          simp [renderContentBlock, he, hd, hds, hot, ht, hne2]
  · intro hd
    constructor
    · cases hod : dom.blockDescriptionElement <;>
        simp [renderContentBlock, hd, hod]
    · intro e he
      simp [renderContentBlock, he, hd]
  · intro hod
    constructor
    · simp [renderContentBlock, hod]
    · simp [renderContentBlock, hod]

/-- C5 witness: rendering a payload with an empty title and a non-empty
description into a page with both text targets present yields the default
title text plus a title warning, and the payload's description text with
no description warning. -/
theorem render_title_description_rule_witness :
    (truthy (ContentData.mk (some ("")) (some ("D")) none none).title = false ∧
      titleWarning ∈ (renderContentBlock (ContentData.mk (some ("")) (some ("D")) none none)
        (Dom.mk (some (TextElem.mk ("t0"))) (some (TextElem.mk ("d0")))
          (ButtonState.mk none none))).warnings ∧
      (renderContentBlock (ContentData.mk (some ("")) (some ("D")) none none)
        (Dom.mk (some (TextElem.mk ("t0"))) (some (TextElem.mk ("d0")))
          (ButtonState.mk none none))).dom.blockTitleElement =
        some { textContent := defaultTitleText }) ∧
    (truthy (ContentData.mk (some ("")) (some ("D")) none none).description = true ∧
      (renderContentBlock (ContentData.mk (some ("")) (some ("D")) none none)
        (Dom.mk (some (TextElem.mk ("t0"))) (some (TextElem.mk ("d0")))
          (ButtonState.mk none none))).dom.blockDescriptionElement =
        some { textContent := "D" }) := by
  have h := render_title_description_rule (ContentData.mk (some ("")) (some ("D")) none none)
    (Dom.mk (some (TextElem.mk ("t0"))) (some (TextElem.mk ("d0"))) (ButtonState.mk none none))
  have h1 := h.1.2.1 (by decide)
  have h2 := (h.2.1 (by decide) (TextElem.mk ("d0")) rfl).1
  refine ⟨⟨by decide, h1.1, h1.2 (TextElem.mk ("t0")) rfl⟩, by decide, ?_⟩
  obtain ⟨s, hs, hres⟩ := h2
  cases hs
  exact hres

/-- C6: when the payload's buttonText is empty or absent, render hides
the button (display becomes "none") and leaves its text and previously
attached handlers unchanged; when the button target is missing, the
button part of the DOM is untouched. -/
theorem render_empty_buttontext_hides_button (data : ContentData) (dom : Dom)
    (h : truthy data.buttonText = false) :
    (∀ b, dom.button.varNode = some b →
      (renderContentBlock data dom).dom.button.varNode =
        some { textContent := b.textContent, display := "none", handlers := b.handlers } ∧
      (renderContentBlock data dom).dom.button.detachedDoc = dom.button.detachedDoc ∧
      (renderContentBlock data dom).outcome = RenderOutcome.completed) ∧
    (dom.button.varNode = none →
      (renderContentBlock data dom).dom.button = dom.button ∧
      (renderContentBlock data dom).outcome = RenderOutcome.completed) := by
  constructor
  · intro b hb
    refine ⟨?_, ?_, ?_⟩ <;> simp [renderContentBlock, hb, h]
  · intro hb
    constructor <;> simp [renderContentBlock, hb]

/-- C6 witness: a payload with title and description but no buttonText,
rendered into a page whose button has text "old" and an attached handler,
leaves text and handler alone and sets display to "none". -/
theorem render_empty_buttontext_hides_button_witness :
    truthy (ContentData.mk (some ("T")) (some ("D")) none none).buttonText = false ∧
    (renderContentBlock (ContentData.mk (some ("T")) (some ("D")) none none)
      (Dom.mk none none (ButtonState.mk (some (ButtonElem.mk ("old") ("block")
        [ContentData.mk none none (some ("Go")) none])) none))).dom.button.varNode =
      some { textContent := "old", display := "none",
             handlers := [ContentData.mk none none (some ("Go")) none] } :=
  ⟨by decide,
   ((render_empty_buttontext_hides_button (ContentData.mk (some ("T")) (some ("D")) none none)
      (Dom.mk none none (ButtonState.mk (some (ButtonElem.mk ("old") ("block")
        [ContentData.mk none none (some ("Go")) none])) none)) (by decide)).1
     (ButtonElem.mk ("old") ("block") [ContentData.mk none none (some ("Go")) none]) rfl).1⟩

/-- C7: after a successful render — fresh page, so the captured button
node is still the in-document one — with truthy buttonText and
buttonLink, the render completes and the in-document button carries
exactly the new handler; invoking it leaves the page location unchanged
(navigation is only logged, the log line is non-empty) and shows exactly
one transient notification whose message contains the render's
buttonText. -/
theorem click_handler_logs_but_never_navigates (data : ContentData) (dom : Dom)
    (b : ButtonElem) (loc : String)
    (hbt : truthy data.buttonText = true) (hbl : truthy data.buttonLink = true)
    (hb : dom.button.varNode = some b) (hfresh : dom.button.detachedDoc = none) :
    ∃ s : String, data.buttonText = some s ∧
      docButton (renderContentBlock data dom).dom.button =
        some { textContent := s, display := "block", handlers := [data] } ∧
      (renderContentBlock data dom).outcome = RenderOutcome.completed ∧
      (clickHandlerRun data loc).location = loc ∧
      (clickHandlerRun data loc).logs ≠ [] ∧
      ∃ pre post : String,
        (clickHandlerRun data loc).notifications.map Toast.message = [pre ++ s ++ post] := by
  cases hds : data.buttonText with
  | none => rw [hds] at hbt; simp [truthy] at hbt
  | some s =>
    rw [hds] at hbt
    refine ⟨s, rfl, ?_, ?_, rfl, ?_, "Action: \x22", "\x22 clicked!", ?_⟩
    · simp [renderContentBlock, docButton, hb, hfresh, hbt, hds]
    · simp [renderContentBlock, hb, hfresh, hbt, hds]
    · simp [clickHandlerRun, hbl]
    · simp [clickHandlerRun, showTemporaryMessage, jsTemplate, hds]

/-- C7 witness: concrete payload with buttonText "Go" and buttonLink
"/go" on a fresh page: the render completes, location "page" is unchanged
and the notification message embeds "Go". -/
theorem click_handler_logs_but_never_navigates_witness :
    truthy (ContentData.mk (some ("T")) (some ("D")) (some ("Go")) (some ("/go"))).buttonText = true ∧
    truthy (ContentData.mk (some ("T")) (some ("D")) (some ("Go")) (some ("/go"))).buttonLink = true ∧
    ∃ s : String,
      (ContentData.mk (some ("T")) (some ("D")) (some ("Go")) (some ("/go"))).buttonText = some s ∧
      docButton (renderContentBlock (ContentData.mk (some ("T")) (some ("D")) (some ("Go")) (some ("/go")))
        (Dom.mk none none (ButtonState.mk (some (ButtonElem.mk ("old") ("none") [])) none))).dom.button =
        some { textContent := s, display := "block",
               handlers := [ContentData.mk (some ("T")) (some ("D")) (some ("Go")) (some ("/go"))] } ∧
      (renderContentBlock (ContentData.mk (some ("T")) (some ("D")) (some ("Go")) (some ("/go")))
        (Dom.mk none none (ButtonState.mk (some (ButtonElem.mk ("old") ("none") [])) none))).outcome =
        RenderOutcome.completed ∧
      (clickHandlerRun (ContentData.mk (some ("T")) (some ("D")) (some ("Go")) (some ("/go")))
        ("page")).location = "page" ∧
      (clickHandlerRun (ContentData.mk (some ("T")) (some ("D")) (some ("Go")) (some ("/go")))
        ("page")).logs ≠ [] ∧
      ∃ pre post : String,
        (clickHandlerRun (ContentData.mk (some ("T")) (some ("D")) (some ("Go")) (some ("/go")))
          ("page")).notifications.map Toast.message = [pre ++ s ++ post] :=
  ⟨by decide, by decide,
   click_handler_logs_but_never_navigates
     (ContentData.mk (some ("T")) (some ("D")) (some ("Go")) (some ("/go")))
     (Dom.mk none none (ButtonState.mk (some (ButtonElem.mk ("old") ("none") [])) none))
     (ButtonElem.mk ("old") ("none") []) ("page") (by decide) (by decide) rfl rfl⟩

/-- C1 (code bug, evaluated at the failing input): rendering twice in
succession with truthy buttonText values "First" then "Second" on a
fresh page does NOT leave the second call's handler. The first call
replaces the captured button node with a clone carrying the first
handler; the second call finds the captured node detached, so its
`replaceChild` line throws a TypeError and no new listener is attached:
the button in the document still shows "First" and still carries exactly
the first call's handler, so a click fires the FIRST notification — the
code contradicts the claim and its own comment about safe repeated
renders. -/
theorem double_render_throws_and_keeps_first_handler :
    (renderContentBlock (ContentData.mk (some ("T2")) (some ("D2")) (some ("Second")) none)
      (renderContentBlock (ContentData.mk (some ("T1")) (some ("D1")) (some ("First")) none)
        (Dom.mk none none (ButtonState.mk (some (ButtonElem.mk ("old") ("none") [])) none))).dom).outcome =
      RenderOutcome.threwTypeError ∧
    docButton (renderContentBlock (ContentData.mk (some ("T2")) (some ("D2")) (some ("Second")) none)
      (renderContentBlock (ContentData.mk (some ("T1")) (some ("D1")) (some ("First")) none)
        (Dom.mk none none (ButtonState.mk (some (ButtonElem.mk ("old") ("none") [])) none))).dom).dom.button =
      some { textContent := "First", display := "block",
             handlers := [ContentData.mk (some ("T1")) (some ("D1")) (some ("First")) none] } ∧
    fireClick { textContent := "First", display := "block",
                handlers := [ContentData.mk (some ("T1")) (some ("D1")) (some ("First")) none] }
        ("page") =
      [showTemporaryMessage ("Action: \x22First\x22 clicked!")] := by
  refine ⟨by decide, by decide, ?_⟩
  simp [fireClick, clickHandlerRun, jsTemplate]

/-- C8: the toast created by showTemporaryMessage has target opacity 0
before the 10ms fade-in timer, 1 from 10ms until the 2000ms fade-out
timer, and 0 from 2000ms on; its removal trigger is the transitionend
event of the fade-out, so given that event fires at te > 2000 the node
is still in the document at the 2000ms mark and is in the document
exactly until te. -/
theorem toast_lifecycle (msg : String) (te : Nat) (hte : 2000 < te) :
    (∀ t, t < 10 → toastOpacityTarget (showTemporaryMessage msg) t = 0) ∧
    (∀ t, 10 ≤ t → t < 2000 → toastOpacityTarget (showTemporaryMessage msg) t = 1) ∧
    (∀ t, 2000 ≤ t → toastOpacityTarget (showTemporaryMessage msg) t = 0) ∧
    (showTemporaryMessage msg).removal = RemovalTrigger.transitionEnd ∧
    toastInDocument (showTemporaryMessage msg) te 2000 = true ∧
    (∀ t, toastInDocument (showTemporaryMessage msg) te t = true ↔ t < te) := by
  refine ⟨?_, ?_, ?_, rfl, ?_, ?_⟩
  · intro t h
    simp [toastOpacityTarget, showTemporaryMessage, h]
  · intro t h1 h2
    have h3 : ¬ t < 10 := by omega
    simp [toastOpacityTarget, showTemporaryMessage, h3, h2]
  · intro t h
    have h3 : ¬ t < 10 := by omega
    have h4 : ¬ t < 2000 := by omega
    simp [toastOpacityTarget, showTemporaryMessage, h3, h4]
  · simp [toastInDocument, showTemporaryMessage]
    omega
  · intro t
    simp [toastInDocument, showTemporaryMessage]

/-- C8 witness: with the fade-out transition completing at te = 2300, the
toast is still in the document at the 2000ms mark, gone at 2300, and its
removal trigger is transitionend. -/
theorem toast_lifecycle_witness :
    2000 < 2300 ∧
    (showTemporaryMessage ("hello")).removal = RemovalTrigger.transitionEnd ∧
    toastInDocument (showTemporaryMessage ("hello")) 2300 2000 = true ∧
    (toastInDocument (showTemporaryMessage ("hello")) 2300 2300 = true ↔ 2300 < 2300) := by
  have h := toast_lifecycle ("hello") 2300 (by omega)
  exact ⟨by omega, h.2.2.2.1, h.2.2.2.2.1, h.2.2.2.2.2 2300⟩

/-- C9: when the main container element is absent, initialization logs
the container error and stops: no fetch is issued, render is never
called, no warnings are produced and the DOM is untouched. -/
theorem init_missing_container (dom : Dom) :
    (initBlock none dom).errors = [containerMissingError] ∧
    (initBlock none dom).fetchIssued = none ∧
    (initBlock none dom).rendered = none ∧
    (initBlock none dom).warnings = [] ∧
    (initBlock none dom).finalDom = dom :=
  ⟨rfl, rfl, rfl, rfl, rfl⟩

theorem initBlock_fetchIssued_eq (attr : Option String) (dom : Dom) :
    (initBlock (some attr) dom).fetchIssued = some (resolveBlockId attr) := by
  simp only [initBlock, fetchContentForBlock]
  split <;> rfl

/-- C10: the fixed fallback identifier is used both when the container's
data-block-id attribute is absent and when it is present but empty: in
both cases the fetch is issued for "homepage-hero-block". -/
theorem falsy_blockid_uses_default (dom : Dom) :
    (initBlock (some none) dom).fetchIssued = some ("homepage-hero-block") ∧
    (initBlock (some (some (""))) dom).fetchIssued = some ("homepage-hero-block") ∧
    resolveBlockId none = "homepage-hero-block" ∧
    resolveBlockId (some ("")) = "homepage-hero-block" :=
  ⟨initBlock_fetchIssued_eq none dom, initBlock_fetchIssued_eq (some ("")) dom, rfl, rfl⟩

end Mycard
